import Mathlib

/-!
Verification of the job-alert watcher (`src/main.py`) against its
natural-language specification.

The program is a single-run script: load the persisted snapshot of seen
posting ids, fetch postings from each configured board, diff current against
previous, persist the updated id set, then send one message per new posting.

The embedding below models:
  * JSON values (`Json`, with mutual list/object spines) and the relevant
    bits of Python dynamic semantics: truthiness, `str()`, hashability,
    `set()` over an arbitrary value, and `dict.get`;
  * `load_seen_ids`, `save_seen_ids`, `normalise_job` and `fetch_jobs` as
    functions over that model, with `Except PyErr` marking an uncaught
    Python exception escaping the function;
  * the `main` reconciliation sequence as the list of externally visible
    effects (`Effect.save` of a snapshot, `Effect.send` for one posting id),
    parameterised by the loaded state and the per-board fetch results.
-/

namespace JobBot

/-- Uncaught Python exceptions that the modelled functions can raise
(exception classes that the source's `try/except` clauses do not list). -/
inductive PyErr where
  | attributeError
  | typeError
deriving DecidableEq

mutual
/-- A parsed JSON value, as `json.load` / `response.json()` produce:
`null`, booleans, numbers (modelled as integers), strings, arrays and
objects. The list and object spines are mutual inductives so that equality
is decidable. -/
inductive Json where
  | null
  | bool (b : Bool)
  | num (n : Int)
  | str (s : String)
  | arr (xs : JsonList)
  | obj (kvs : JsonObj)
deriving DecidableEq

/-- The spine of a JSON array. -/
inductive JsonList where
  | nil
  | cons (hd : Json) (tl : JsonList)
deriving DecidableEq

/-- The spine of a JSON object: key/value entries in insertion order
(Python dicts have unique keys). -/
inductive JsonObj where
  | nil
  | cons (k : String) (v : Json) (tl : JsonObj)
deriving DecidableEq
end

/-- The elements of a JSON array as a Lean list. -/
def JsonList.toList : JsonList → List Json
  | .nil => []
  | .cons x xs => x :: xs.toList

/-- The keys of a JSON object, in order. -/
def JsonObj.keys : JsonObj → List String
  | .nil => []
  | .cons k _ tl => k :: tl.keys

/-- Python `d.get(key)` on an object: the value at `key`, if present. -/
def jsonGet : JsonObj → String → Option Json
  | .nil, _ => none
  | .cons k v tl, key => if k = key then some v else jsonGet tl key

/-- Python truthiness of a JSON value: `None`, `False`, `0`, `""`, `[]`
and `{}` are falsy, everything else truthy. -/
def pyTruthy : Json → Bool
  | .null => false
  | .bool b => b
  | .num n => n != 0
  | .str s => s ≠ ""
  | .arr .nil => false
  | .arr _ => true
  | .obj .nil => false
  | .obj _ => true

/-- Python hashability of a JSON value: lists and dicts are unhashable. -/
def pyHashable : Json → Bool
  | .arr _ => false
  | .obj _ => false
  | _ => true

mutual
/-- Python `repr()` of a JSON value (escaping inside string reprs is not
needed by any input considered here). -/
def pyRepr : Json → String
  | .null => "None"
  | .bool true => "True"
  | .bool false => "False"
  | .num n => toString n
  | .str s => "'" ++ s ++ "'"
  | .arr xs => "[" ++ pyReprList xs ++ "]"
  | .obj kvs => "\x7b" ++ pyReprObj kvs ++ "\x7d"

/-- Comma-separated reprs of an array's elements. -/
def pyReprList : JsonList → String
  | .nil => ""
  | .cons x .nil => pyRepr x
  | .cons x xs => pyRepr x ++ ", " ++ pyReprList xs

/-- Comma-separated reprs of an object's entries. -/
def pyReprObj : JsonObj → String
  | .nil => ""
  | .cons k v .nil => "'" ++ k ++ "': " ++ pyRepr v
  | .cons k v tl => "'" ++ k ++ "': " ++ pyRepr v ++ ", " ++ pyReprObj tl
end

/-- Python `str()` of a JSON value, as an f-string interpolates it:
the identity on strings, `repr`-like elsewhere. -/
def pyStr : Json → String
  | .str s => s
  | j => pyRepr j

/-- All elements of an array are hashable. -/
def JsonList.allHashable : JsonList → Bool
  | .nil => true
  | .cons x xs => pyHashable x && xs.allHashable

/-- Python `set(v)`: iterating a value and collecting its elements.
Arrays yield their elements (raising `TypeError` when one is unhashable),
strings yield their one-character substrings, dicts yield their keys;
`None`, booleans and numbers are not iterable (`TypeError`). -/
def pySet : Json → Except PyErr (Finset Json)
  | .arr xs => if xs.allHashable then .ok xs.toList.toFinset else .error .typeError
  | .str s => .ok ((s.toList.map (fun c => Json.str c.toString)).toFinset)
  | .obj kvs => .ok ((kvs.keys.map Json.str).toFinset)
  | _ => .error .typeError

/-- State of the snapshot file (`jobs.json`) as `load_seen_ids` sees it:
missing, present but failing to read or to parse as JSON
(`IOError` / `json.JSONDecodeError`, both caught), or parsed to a value. -/
inductive FileState where
  | missing
  | unreadable
  | parsed (j : Json)

/-- Model of `load_seen_ids` (src/main.py:120-135). Returns the loaded set
and the `is_first_run` flag; `Except.error` marks an uncaught exception.
The source catches only `json.JSONDecodeError` and `IOError`, so a file
that parses to a JSON value that is not an object raises `AttributeError`
at `data.get("ids", [])`, and an `ids` value that is not iterable (or has
unhashable elements) raises `TypeError` at `set(...)`. -/
def load_seen_ids : FileState → Except PyErr (Finset Json × Bool)
  | .missing => .ok (∅, true)
  | .unreadable => .ok (∅, false)
  | .parsed (.obj kvs) =>
    match pySet ((jsonGet kvs "ids").getD (.arr .nil)) with
    | .ok s => .ok (s, false)
    | .error e => .error e
  | .parsed _ => .error .attributeError

/-- A normalised posting as `normalise_job` builds it (src/main.py:88-114).
`id` and `platform` are always strings (built by string interpolation);
the remaining fields hold whatever JSON value the raw record supplied
(or the documented default). -/
structure Job where
  id : String
  platform : String
  title : Json
  department : Json
  team : Json
  location : Json
  is_remote : Json
  employment_type : Json
  published_at : Json
  job_url : Json
  apply_url : Json
deriving DecidableEq

/-- The `employment_type_map` lookup with the raw value as default:
`employment_type_map.get(raw_type, raw_type)`. -/
def employment_type_map (raw_type : Json) : Json :=
  if raw_type = .str "FullTime" then .str "Full-Time"
  else if raw_type = .str "PartTime" then .str "Part-Time"
  else if raw_type = .str "Contract" then .str "Contract"
  else if raw_type = .str "Intern" then .str "Internship"
  else raw_type

/-- Model of `normalise_job` (src/main.py:88-114) on a raw job dict.
`raw.get("id") or fallback` uses Python truthiness: any falsy id (absent,
`None`, `""`, `0`, ...) selects the deterministic fallback built from
title and publish timestamp. A raw `employmentType` that is unhashable
raises `TypeError` at the `employment_type_map.get` lookup. -/
def normalise_job (raw : JsonObj) (platform_name : String) : Except PyErr Job :=
  let raw_type := (jsonGet raw "employmentType").getD (.str "")
  let idv := (jsonGet raw "id").getD .null
  let fallback_id :=
    pyStr ((jsonGet raw "title").getD (.str "")) ++ "_" ++
      pyStr ((jsonGet raw "publishedAt").getD (.str ""))
  let job_id := if pyTruthy idv then pyStr idv else fallback_id
  let internal_id := platform_name ++ ":" ++ job_id
  if pyHashable raw_type then
    .ok
      { id := internal_id
        platform := platform_name
        title := (jsonGet raw "title").getD (.str "Untitled Role")
        department := (jsonGet raw "department").getD (.str "Unknown")
        team := (jsonGet raw "team").getD (.str "")
        location := (jsonGet raw "location").getD (.str "Unknown")
        is_remote := (jsonGet raw "isRemote").getD (.bool false)
        employment_type := employment_type_map raw_type
        published_at := (jsonGet raw "publishedAt").getD (.str "")
        job_url := (jsonGet raw "jobUrl").getD (.str "")
        apply_url := (jsonGet raw "applyUrl").getD (.str "") }
  else .error .typeError

/-- One configured board: a display name and a feed URL. -/
structure Board where
  name : String
  url : String

/-- Outcome of the HTTP request `fetch_jobs` performs: a timeout, an error
status (raised by `raise_for_status`), another network failure, or a
successful response whose body parses to a JSON value (`none` when the
body is not valid JSON, the `ValueError` that `response.json()` raises). -/
inductive HttpResult where
  | timeout
  | httpError (status : Nat)
  | networkError
  | success (parsed : Option Json)

/-- The list comprehension of `fetch_jobs`:
`[normalise_job(job, name) for job in raw_jobs if isinstance(job, dict)]`,
left to right, propagating an exception from `normalise_job`. -/
def normalise_each (name : String) : JsonList → Except PyErr (List Job)
  | .nil => .ok []
  | .cons (.obj kvs) rest =>
    match normalise_job kvs name with
    | .ok j =>
      match normalise_each name rest with
      | .ok js => .ok (j :: js)
      | .error e => .error e
    | .error e => .error e
  | .cons _ rest => normalise_each name rest

/-- Model of `fetch_jobs` (src/main.py:61-85). Timeouts, HTTP error
statuses, other network failures and JSON-decode failures are caught and
yield `[]`. A successful response whose body is valid JSON but not an
object raises `AttributeError` at `data.get("jobs", [])` (only
`requests` exceptions, `ValueError` and `KeyError` are caught); a `jobs`
value that is not iterable raises `TypeError`; iterating a string or a
dict yields no dict elements, so those give `[]`. -/
def fetch_jobs (board : Board) (resp : HttpResult) : Except PyErr (List Job) :=
  match resp with
  | .timeout => .ok []
  | .httpError _ => .ok []
  | .networkError => .ok []
  | .success none => .ok []
  | .success (some data) =>
    match data with
    | .obj kvs =>
      match (jsonGet kvs "jobs").getD (.arr .nil) with
      | .arr xs => normalise_each board.name xs
      | .str _ => .ok []
      | .obj _ => .ok []
      | _ => .error .typeError
    | _ => .error .attributeError

/-- The ascending sorted list of a set of id strings
(Python `sorted(list(ids))`). -/
def sortedIds (s : Finset String) : List String := s.sort (· ≤ ·)

/-- The byte content `save_seen_ids` writes: `json.dump({"ids": sorted(list(ids))}, f, indent=2)`
(src/main.py:144-147), rendered with the ids in ascending order. -/
def serialize_snapshot (ids : Finset String) : String :=
  "\x7b\n  \"ids\": [\n" ++
    String.intercalate ",\n" ((sortedIds ids).map (fun s => "    \"" ++ s ++ "\"")) ++
    "\n  ]\n\x7d"

/-- The successive contents of the snapshot file during `save_seen_ids`
(src/main.py:138-149): the old content, then the empty file that
`open(filepath, "w")` leaves after truncation, then the dumped snapshot.
An interruption can expose any of these states. -/
def save_file_states (old : String) (ids : Finset String) : List String :=
  [old, "", serialize_snapshot ids]

/-- One externally visible effect of a run: a write of the snapshot file
(`save_seen_ids`, which completes even when the write fails, logging it),
or a notification attempt for one posting id
(`send_telegram_message(format_new_job_message(job_by_id[job_id]), ...)`). -/
inductive Effect where
  | save (ids : Finset String)
  | send (job_id : String)

/-- The fetch loop of `main` (src/main.py:230-238): concatenate the
per-board results, extending only with non-empty ones (extending with an
empty list would be the same). -/
def all_jobs : List (List Job) → List Job
  | [] => []
  | r :: rest => (if r.isEmpty then [] else r) ++ all_jobs rest

/-- The set `current_ids = {job["id"] for job in all_jobs}` (src/main.py:244). -/
def current_ids (jobs : List Job) : Finset String := (jobs.map (·.id)).toFinset

/-- The diff `new_ids = current_ids - seen_ids` (src/main.py:257). -/
def new_ids (seen current : Finset String) : Finset String := current \ seen

/-- The diff `removed_ids = seen_ids - current_ids` (src/main.py:258). -/
def removed_ids (seen current : Finset String) : Finset String := seen \ current

/-- The persisted set `updated_ids = (seen_ids | new_ids) - removed_ids`
(src/main.py:261). -/
def updated_ids (seen current : Finset String) : Finset String :=
  (seen ∪ new_ids seen current) \ removed_ids seen current

/-- The reconciliation sequence of `main` (src/main.py:227-284) as its list
of effects, given the loaded state `(seen, is_first_run)` and the per-board
fetch results. An empty total fetch short-circuits before any effect; a
first run saves the current ids and notifies nothing; a steady-state run
saves the updated ids and then notifies each new id in ascending order. -/
def main_effects (seen : Finset String) (is_first_run : Bool)
    (results : List (List Job)) : List Effect :=
  let jobs := all_jobs results
  if jobs.isEmpty then []
  else if is_first_run then [.save (current_ids jobs)]
  else
    .save (updated_ids seen (current_ids jobs)) ::
      (sortedIds (new_ids seen (current_ids jobs))).map .send

/-- The ids notified by a run, in order. -/
def sentIds : List Effect → List String
  | [] => []
  | .save _ :: rest => sentIds rest
  | .send i :: rest => i :: sentIds rest

/-- Scans a trace and checks that every notification attempt is preceded by
a completed snapshot write; `saved` records whether a save has occurred. -/
def notify_after_persist (saved : Bool) : List Effect → Bool
  | [] => true
  | .save _ :: rest => notify_after_persist true rest
  | .send _ :: rest => saved && notify_after_persist saved rest

/-- The content of the snapshot file after a run's effects are applied to
its prior content: each save replaces the content in full. -/
def apply_effects (file : String) : List Effect → String
  | [] => file
  | .save ids :: rest => apply_effects (serialize_snapshot ids) rest
  | .send _ :: rest => apply_effects file rest

/-- The one configured board of src/main.py:31-36. -/
def scaleBoard : Board :=
  { name := "Scale Army Careers"
    url := "https://api.ashbyhq.com/posting-api/job-board/Scale%20Army%20Careers" }

/-- A concrete normalised posting, used as witness input. -/
def sampleJob : Job :=
  { id := "Scale Army Careers:j1"
    platform := "Scale Army Careers"
    title := .str "Engineer"
    department := .str "Unknown"
    team := .str ""
    location := .str "Remote"
    is_remote := .bool true
    employment_type := .str "Full-Time"
    published_at := .str "2024-01-01"
    job_url := .str ""
    apply_url := .str "" }

lemma sentIds_map_send (l : List String) : sentIds (l.map Effect.send) = l := by
  induction l with
  | nil => rfl
  | cons a l ih => simp [sentIds, ih]

lemma notify_after_persist_sends (l : List String) :
    notify_after_persist true (l.map Effect.send) = true := by
  induction l with
  | nil => rfl
  | cons a l ih => simp [notify_after_persist, ih]

lemma all_jobs_eq_nil (results : List (List Job)) (h : ∀ r ∈ results, r = []) :
    all_jobs results = [] := by
  induction results with
  | nil => rfl
  | cons r rest ih =>
    have hr : r = [] := h r (List.mem_cons_self ..)
    subst hr
    simpa [all_jobs] using ih (fun r hr => h r (List.mem_cons_of_mem _ hr))

lemma serialize_snapshot_ne_empty (ids : Finset String) : serialize_snapshot ids ≠ "" := by
  intro h
  have hlen := congrArg String.length h
  rw [serialize_snapshot, String.length_append, String.length_append] at hlen
  have h13 : ("\x7b\n  \"ids\": [\n" : String).length = 13 := rfl
  rw [h13] at hlen
  simp at hlen

/-- Claim C1: in every run, the snapshot write (`save_seen_ids`, which
completes by succeeding or by logging its failure) happens before any
notification send is attempted: scanning the run's effect trace never finds
a send that is not preceded by the save. -/
theorem persist_completes_before_any_notify (seen : Finset String)
    (is_first_run : Bool) (results : List (List Job)) :
    notify_after_persist false (main_effects seen is_first_run results) = true := by
  by_cases h : (all_jobs results).isEmpty
  · simp [main_effects, h, notify_after_persist]
  · by_cases hf : is_first_run
    · simp [main_effects, h, hf, notify_after_persist]
    · simp [main_effects, h, hf, notify_after_persist, notify_after_persist_sends]

/-- Claim C2: a first run (`is_first_run = true`) with a non-empty fetch
persists exactly the set of fetched posting ids and sends no notification:
its effect trace is the single snapshot write of the current ids. -/
theorem first_run_records_silently (seen : Finset String)
    (results : List (List Job)) (h : all_jobs results ≠ []) :
    main_effects seen true results = [Effect.save (current_ids (all_jobs results))] := by
  have h2 : (all_jobs results).isEmpty = false := by
    cases hj : all_jobs results with
    | nil => exact absurd hj h
    | cons a l => rfl
  simp [main_effects, h2]

/-- Witness for C2 at a concrete first run fetching one posting. -/
theorem first_run_records_silently_witness :
    all_jobs [[sampleJob]] ≠ [] ∧
      main_effects ∅ true [[sampleJob]] =
        [Effect.save (current_ids (all_jobs [[sampleJob]]))] :=
  ⟨by simp [all_jobs], first_run_records_silently ∅ [[sampleJob]] (by simp [all_jobs])⟩

/-- Claim C3: a run in which every board's fetch yields zero postings
short-circuits before the diff: it produces no snapshot write and no
notification, and the snapshot file's prior content is left unchanged. -/
theorem total_fetch_failure_skips_cycle (seen : Finset String)
    (is_first_run : Bool) (results : List (List Job)) (file : String)
    (h : ∀ r ∈ results, r = []) :
    main_effects seen is_first_run results = [] ∧
      apply_effects file (main_effects seen is_first_run results) = file := by
  have h0 : all_jobs results = [] := all_jobs_eq_nil results h
  refine ⟨by simp [main_effects, h0], ?_⟩
  simp [main_effects, h0, apply_effects]

/-- Witness for C3 at a concrete run whose one board returned nothing. -/
theorem total_fetch_failure_skips_cycle_witness :
    (∀ r ∈ [([] : List Job)], r = []) ∧
      (main_effects ∅ false [[]] = [] ∧
        apply_effects "PRIOR" (main_effects ∅ false [[]]) = "PRIOR") :=
  ⟨by simp, total_fetch_failure_skips_cycle ∅ false [[]] "PRIOR" (by simp)⟩

/-- Claim C5: the persisted set computed incrementally by `main`,
`(seen ∪ (current − seen)) − (seen − current)`, equals `current` exactly,
so after a successful steady-state run the snapshot holds exactly the ids
of the most recent fetch. -/
theorem updated_ids_eq_current (seen current : Finset String) :
    updated_ids seen current = current := by
  ext x
  simp only [updated_ids, new_ids, removed_ids, Finset.mem_sdiff,
    Finset.mem_union]
  tauto

/-- Claim C8: in a steady-state run the ids notified are exactly
`current − seen`, listed in ascending sorted order, so the notification
order is a function of the previous and current id sets alone. -/
theorem notifications_are_sorted_new_ids (seen : Finset String)
    (results : List (List Job)) :
    sentIds (main_effects seen false results) =
      sortedIds (new_ids seen (current_ids (all_jobs results))) := by
  cases hj : all_jobs results with
  | nil =>
    simp [main_effects, hj, sentIds, new_ids, current_ids, sortedIds,
      Finset.sort_empty]
  | cons a l =>
    simp [main_effects, hj, sentIds, sentIds_map_send]

/-- Claim C10: in a steady-state run with two boards where the first
board's fetch returns a non-empty list and the second returns `[]`, the
run is not short-circuited, and every previously seen id that none of the
fetched postings carries — in particular every id namespaced to the failed
board — lands in `removed_ids` and is dropped from the persisted snapshot. -/
theorem board_failure_drops_its_ids (seen : Finset String) (r1 : List Job)
    (x : String) (h1 : r1 ≠ []) (hx : x ∈ seen)
    (hnot : ∀ j ∈ r1, j.id ≠ x) :
    x ∈ removed_ids seen (current_ids (all_jobs [r1, []])) ∧
      x ∉ updated_ids seen (current_ids (all_jobs [r1, []])) ∧
      main_effects seen false [r1, []] =
        Effect.save (updated_ids seen (current_ids (all_jobs [r1, []]))) ::
          (sortedIds (new_ids seen (current_ids (all_jobs [r1, []])))).map
            Effect.send := by
  have hall : all_jobs [r1, []] = r1 := by
    cases r1 with
    | nil => exact absurd rfl h1
    | cons a l => simp [all_jobs]
  have hxc : x ∉ current_ids (all_jobs [r1, []]) := by
    rw [hall]
    simp only [current_ids, List.mem_toFinset, List.mem_map, not_exists]
    rintro j ⟨hj, hid⟩
    exact hnot j hj hid
  have hrem : x ∈ removed_ids seen (current_ids (all_jobs [r1, []])) := by
    simp only [removed_ids, Finset.mem_sdiff]
    exact ⟨hx, hxc⟩
  have h2 : r1.isEmpty = false := by
    cases r1 with
    | nil => exact absurd rfl h1
    | cons a l => rfl
  refine ⟨hrem, ?_, ?_⟩
  · intro hmem
    simp only [updated_ids, Finset.mem_sdiff] at hmem
    exact hmem.2 hrem
  · simp [main_effects, hall, h2]

/-- Witness for C10: board one returns `sampleJob`, board two fails; the
previously seen id namespaced to the failed board is dropped. -/
theorem board_failure_drops_its_ids_witness :
    (([sampleJob] : List Job) ≠ [] ∧
        "Other Board:j9" ∈
          ({"Scale Army Careers:j1", "Other Board:j9"} : Finset String) ∧
        ∀ j ∈ [sampleJob], j.id ≠ "Other Board:j9") ∧
      ("Other Board:j9" ∈
          removed_ids {"Scale Army Careers:j1", "Other Board:j9"}
            (current_ids (all_jobs [[sampleJob], []])) ∧
        "Other Board:j9" ∉
          updated_ids {"Scale Army Careers:j1", "Other Board:j9"}
            (current_ids (all_jobs [[sampleJob], []])) ∧
        main_effects {"Scale Army Careers:j1", "Other Board:j9"} false
            [[sampleJob], []] =
          Effect.save
              (updated_ids {"Scale Army Careers:j1", "Other Board:j9"}
                (current_ids (all_jobs [[sampleJob], []]))) ::
            (sortedIds
                (new_ids {"Scale Army Careers:j1", "Other Board:j9"}
                  (current_ids (all_jobs [[sampleJob], []])))).map
              Effect.send) :=
  ⟨⟨by simp, by decide, by decide⟩,
    board_failure_drops_its_ids {"Scale Army Careers:j1", "Other Board:j9"}
      [sampleJob] "Other Board:j9" (by simp) (by decide) (by decide)⟩

/-- Counterexample to C6: the snapshot write is not a single atomic replace.
`save_seen_ids` opens the existing file with mode `"w"` (truncation) and
then dumps into it, so the interruption point between truncation and dump
exposes an empty file — neither the complete old snapshot (here the
serialized snapshot of `a`) nor the complete new one. -/
theorem snapshot_write_exposes_partial_state :
    "" ∈ save_file_states (serialize_snapshot {"a"}) {"b"} ∧
      "" ≠ serialize_snapshot {"a"} ∧
      "" ≠ serialize_snapshot {"b"} :=
  ⟨by simp [save_file_states],
    Ne.symm (serialize_snapshot_ne_empty {"a"}),
    Ne.symm (serialize_snapshot_ne_empty {"b"})⟩

/-- Claim C6 as amended: each snapshot write replaces the file's content in
full, ending with the complete serialized new snapshot, but it is a
truncate-then-write of the same file rather than an atomic replace: when
the prior content is non-empty, the trace of observable file states
contains a state that is neither the old content nor the new snapshot
(the empty file left by truncation). -/
theorem snapshot_write_truncates_then_writes (old : String)
    (ids : Finset String) (h : old ≠ "") :
    (save_file_states old ids).head? = some old ∧
      (save_file_states old ids).getLast? = some (serialize_snapshot ids) ∧
      ∃ s ∈ save_file_states old ids, s ≠ old ∧ s ≠ serialize_snapshot ids :=
  ⟨rfl, rfl,
    ⟨"", by simp [save_file_states],
      Ne.symm h, Ne.symm (serialize_snapshot_ne_empty ids)⟩⟩

/-- Witness for the amended C6 at a concrete non-empty prior content. -/
theorem snapshot_write_truncates_then_writes_witness :
    ("snap" : String) ≠ "" ∧
      ((save_file_states "snap" ∅).head? = some "snap" ∧
        (save_file_states "snap" ∅).getLast? = some (serialize_snapshot ∅) ∧
        ∃ s ∈ save_file_states "snap" ∅, s ≠ "snap" ∧ s ≠ serialize_snapshot ∅) :=
  ⟨by decide, snapshot_write_truncates_then_writes "snap" ∅ (by decide)⟩

/-- A raw job record whose `id` field is present but holds the empty
string (a falsy value). -/
def presentEmptyIdRaw : JsonObj :=
  .cons "id" (.str "")
    (.cons "title" (.str "T") (.cons "publishedAt" (.str "P") .nil))

/-- The posting `normalise_job` builds from `presentEmptyIdRaw`. -/
def presentEmptyIdJob : Job :=
  { id := "Scale Army Careers:T_P"
    platform := "Scale Army Careers"
    title := .str "T"
    department := .str "Unknown"
    team := .str ""
    location := .str "Unknown"
    is_remote := .bool false
    employment_type := .str ""
    published_at := .str "P"
    job_url := .str ""
    apply_url := .str "" }

/-- Counterexample to C9: the fallback suffix is not used only when the
source-local identifier is absent. For a raw record whose `id` field is
present with the empty string, `raw.get("id") or fallback` takes the
fallback (Python truthiness), so the normalized id is built from title and
publish timestamp instead of the present identifier. -/
theorem fallback_id_used_despite_present_id :
    jsonGet presentEmptyIdRaw "id" = some (.str "") ∧
      normalise_job presentEmptyIdRaw "Scale Army Careers" =
        .ok presentEmptyIdJob ∧
      presentEmptyIdJob.id ≠ "Scale Army Careers" ++ ":" ++ pyStr (.str "") :=
  ⟨rfl, rfl, by decide⟩

/-- Claim C9 as amended: the normalized id is the source name, a colon,
and the source-local identifier whenever that identifier is present and
truthy; when the identifier is absent or falsy (null, empty string, zero,
...), the suffix is instead the deterministic fallback built from the
title and the publish timestamp. (Normalization is a pure function, so
the same raw record always yields the same id.) -/
theorem id_namespaced_fallback_on_falsy (raw : JsonObj) (name : String)
    (j : Job) (h : normalise_job raw name = .ok j) :
    (∀ v, jsonGet raw "id" = some v → pyTruthy v = true →
      j.id = name ++ ":" ++ pyStr v) ∧
      ((jsonGet raw "id" = none ∨
          ∃ v, jsonGet raw "id" = some v ∧ pyTruthy v = false) →
        j.id = name ++ ":" ++
          (pyStr ((jsonGet raw "title").getD (.str "")) ++ "_" ++
            pyStr ((jsonGet raw "publishedAt").getD (.str "")))) := by
  rw [normalise_job] at h
  split at h
  case isFalse => exact absurd h (by simp)
  case isTrue =>
    have hj : j.id =
        name ++ ":" ++
          (if pyTruthy ((jsonGet raw "id").getD .null) then
            pyStr ((jsonGet raw "id").getD .null)
          else
            pyStr ((jsonGet raw "title").getD (.str "")) ++ "_" ++
              pyStr ((jsonGet raw "publishedAt").getD (.str ""))) := by
      cases h
      rfl
    constructor
    · intro v hv ht
      rw [hj, hv]
      simp [ht]
    · intro hfall
      rcases hfall with hnone | ⟨v, hv, hfalse⟩
      · rw [hj, hnone]
        simp [pyTruthy]
      · rw [hj, hv]
        simp [hfalse]

/-- A raw job record with a present, truthy identifier. -/
def presentIdRaw : JsonObj := .cons "id" (.str "7") .nil

/-- The posting `normalise_job` builds from `presentIdRaw`. -/
def presentIdJob : Job :=
  { id := "S:7"
    platform := "S"
    title := .str "Untitled Role"
    department := .str "Unknown"
    team := .str ""
    location := .str "Unknown"
    is_remote := .bool false
    employment_type := .str ""
    published_at := .str ""
    job_url := .str ""
    apply_url := .str "" }

/-- Witness for the amended C9 at a raw record with a truthy identifier. -/
theorem id_namespaced_fallback_on_falsy_witness :
    normalise_job presentIdRaw "S" = .ok presentIdJob ∧
      presentIdJob.id = "S" ++ ":" ++ pyStr (.str "7") :=
  ⟨rfl,
    (id_namespaced_fallback_on_falsy presentIdRaw "S" presentIdJob rfl).1
      (.str "7") rfl rfl⟩

/-- Claim C4, behaviour at the failing input: `load_seen_ids` returns
`(∅, true)` for a missing file and `(∅, false)` for a file that fails to
read or to parse as JSON, but a file whose content is valid JSON of the
wrong shape escapes the `except (json.JSONDecodeError, IOError)` clause:
a non-object top level raises `AttributeError` at `data.get`, and a
non-iterable `ids` value raises `TypeError` at `set(...)`. -/
theorem load_seen_ids_uncaught_shape_error :
    load_seen_ids .missing = .ok (∅, true) ∧
      load_seen_ids .unreadable = .ok (∅, false) ∧
      load_seen_ids (.parsed (.arr .nil)) = .error .attributeError ∧
      load_seen_ids (.parsed (.obj (.cons "ids" (.num 3) .nil))) =
        .error .typeError :=
  ⟨rfl, rfl, rfl, rfl⟩

/-- Claim C7, behaviour at the failing input: `fetch_jobs` returns `[]` on
timeouts, HTTP error statuses, other network failures and non-JSON bodies,
but a successful response whose body is valid JSON and not an object
escapes the `except` clauses: `data.get("jobs", [])` raises
`AttributeError`; a non-iterable `jobs` value raises `TypeError`. -/
theorem fetch_jobs_uncaught_shape_error :
    fetch_jobs scaleBoard .timeout = .ok [] ∧
      fetch_jobs scaleBoard (.httpError 500) = .ok [] ∧
      fetch_jobs scaleBoard .networkError = .ok [] ∧
      fetch_jobs scaleBoard (.success none) = .ok [] ∧
      fetch_jobs scaleBoard (.success (some (.arr .nil))) =
        .error .attributeError ∧
      fetch_jobs scaleBoard
          (.success (some (.obj (.cons "jobs" (.num 1) .nil)))) =
        .error .typeError :=
  ⟨rfl, rfl, rfl, rfl, rfl, rfl⟩

end JobBot
